import Mathlib

/-!
Shallow embedding of `src/server.js` (Snickers Chat backend).

The file models the four HTTP handlers of the Express app as pure Lean
functions.  External collaborators are made explicit parameters:

* the Firestore `users` collection is a function `Store : String → Option UserRecord`;
* the possibility that the sender-record lookup throws (the inner
  `try/catch` at lines 70-79 of `server.js`) is a Boolean parameter;
* the result of `admin.messaging().send` is an `Except String String`
  (provider error message, or receipt id);
* server-generated timestamps (`new Date().toISOString()`,
  `FieldValue.serverTimestamp()`) are string parameters.

Each handler returns an outcome record that carries the HTTP status, the
JSON body fields that the source writes, the list of record-store document
reads it performed, and (for the dispatch handler) the payload passed to
the delivery service, if the handler reached that call.
-/

namespace SnickersChat

/-- Length of a JavaScript string (`s.length`), as a count of characters. -/
def jsLength (s : String) : Nat := s.data.length

/-- JavaScript `s.substring(0, n)`: the first `n` characters of `s`. -/
def jsSubstring (s : String) (n : Nat) : String := ⟨s.data.take n⟩

/-- JavaScript truthiness of an optional string value: `undefined` (here
`none`) and the empty string are falsy, every other string is truthy. -/
def truthy : Option String → Bool
  | none => false
  | some s => !(s == "")

/-- JavaScript `a || b` where `a` is an optional string and `b` a string
default: yields `b` when `a` is falsy. -/
def jsOr (a : Option String) (b : String) : String :=
  match a with
  | none => b
  | some s => if s == "" then b else s

/-- JavaScript `a || null` for an optional string `a`: an absent or empty
string becomes `null` (`none`). -/
def jsOrNull (a : Option String) : Option String :=
  match a with
  | none => none
  | some s => if s == "" then none else some s

/-- A document of the Firestore `users` collection, restricted to the
fields `server.js` reads or writes: `fcmToken`, `username`,
`lastTokenUpdate`.  Absent fields are `none`. -/
structure UserRecord where
  fcmToken : Option String
  username : Option String
  lastTokenUpdate : Option String
  deriving DecidableEq

/-- The `users` collection keyed by document id; `none` means the document
does not exist (`!userDoc.exists`). -/
abbrev Store := String → Option UserRecord

/-- The JSON body of `POST /api/send-notification` as destructured at
lines 31-37 of `server.js`; `none` is an absent field. -/
structure NotifRequest where
  receiverId : Option String
  senderId : Option String
  senderName : Option String
  message : Option String
  chatRoomId : Option String
  deriving DecidableEq

/-- The message object built at lines 85-108 of `server.js` and handed to
`admin.messaging().send`.  The `android` block of the source is constant;
its fields are reproduced verbatim. -/
structure NotificationPayload where
  title : Option String
  body : String
  dataTitle : Option String
  dataMessage : String
  dataSenderId : String
  dataSenderName : Option String
  dataChatRoomId : String
  dataTimestamp : String
  token : String
  androidPriority : String
  channelId : String
  androidNotifPriority : String
  defaultSound : Bool
  defaultVibrateTimings : Bool
  deriving DecidableEq

/-- Result of one run of the dispatch handler: HTTP status, JSON body
fields (`error`, `details`, `success`, `messageId`, `message`), the ids of
the `users` documents fetched from the record store, and the payload given
to the delivery service when the handler reached that call. -/
structure DispatchOutcome where
  status : Nat
  error : Option String
  details : Option String
  success : Bool
  messageId : Option String
  message : Option String
  sent : Option NotificationPayload
  storeGets : List String
  deriving DecidableEq

/-- The `POST /api/send-notification` handler (lines 29-130 of
`server.js`).  `store` is the Firestore `users` collection,
`senderLookupFails` says whether the sender-record `get()` at line 72
throws, `sendOutcome` is the delivery-service response, and `now` stands
for `new Date().toISOString()`. -/
def sendNotification (store : Store) (senderLookupFails : Bool)
    (sendOutcome : Except String String) (now : String)
    (req : NotifRequest) : DispatchOutcome :=
  if !(truthy req.receiverId) || !(truthy req.senderId) || !(truthy req.message) then
    { status := 400,
      error := some "Missing required fields: receiverId, senderId, message",
      details := none, success := false, messageId := none, message := none,
      sent := none, storeGets := [] }
  else
    let receiverId := req.receiverId.getD ""
    let senderId := req.senderId.getD ""
    let message := req.message.getD ""
    match store receiverId with
    | none =>
      { status := 404, error := some "User not found", details := none,
        success := false, messageId := none, message := none,
        sent := none, storeGets := [receiverId] }
    | some userData =>
      if !(truthy userData.fcmToken) then
        { status := 404, error := some "FCM token not found", details := none,
          success := false, messageId := none, message := none,
          sent := none, storeGets := [receiverId] }
      else
        let fcmToken := userData.fcmToken.getD ""
        let needLookup := !(truthy req.senderName) || req.senderName == some "Kullanıcı"
        let finalSenderName : Option String :=
          if needLookup then
            if senderLookupFails then some "Bilinmeyen"
            else
              match store senderId with
              | some senderData => some (jsOr senderData.username "Bilinmeyen")
              | none => req.senderName
          else req.senderName
        let payload : NotificationPayload :=
          { title := finalSenderName,
            body := if jsLength message > 50 then jsSubstring message 50 ++ "..." else message,
            dataTitle := finalSenderName,
            dataMessage := message,
            dataSenderId := senderId,
            dataSenderName := finalSenderName,
            dataChatRoomId := jsOr req.chatRoomId "",
            dataTimestamp := now,
            token := fcmToken,
            androidPriority := "high",
            channelId := "snickers_chat_channel",
            androidNotifPriority := "high",
            defaultSound := true,
            defaultVibrateTimings := true }
        let storeGets := [receiverId] ++ (if needLookup then [senderId] else [])
        match sendOutcome with
        | Except.ok receipt =>
          { status := 200, error := none, details := none, success := true,
            messageId := some receipt,
            message := some "Notification sent successfully",
            sent := some payload, storeGets := storeGets }
        | Except.error e =>
          { status := 500, error := some "Failed to send notification",
            details := some e, success := false, messageId := none,
            message := none, sent := some payload, storeGets := storeGets }

/-- Result of the token read handler: HTTP status and the JSON body fields
it can emit. -/
structure TokenReadOutcome where
  status : Nat
  error : Option String
  userId : Option String
  fcmToken : Option String
  deriving DecidableEq

/-- The `GET /api/user/:userId/token` handler (lines 133-158 of
`server.js`). -/
def getUserToken (store : Store) (userId : String) : TokenReadOutcome :=
  match store userId with
  | none => { status := 404, error := some "User not found", userId := none, fcmToken := none }
  | some userData =>
    { status := 200, error := none, userId := some userId,
      fcmToken := jsOrNull userData.fcmToken }

/-- Result of the token write handler: HTTP status and the JSON body
fields it can emit. -/
structure TokenWriteOutcome where
  status : Nat
  error : Option String
  success : Bool
  message : Option String
  deriving DecidableEq

/-- Modelled from the spec: the update-by-id operation of the record store
used at lines 171-174 of `server.js` lives in the external Firestore
client, not in `src/`.  For an existing record it merges the two written
fields into the record, which is both the documented Firestore behavior
and the description of §6 ("partial field merge, plus a server-generated
timestamp field type").  For an absent record the spec expressly leaves
the behavior provider-dependent (§4.2, and the §9 open question), so the
creation branch below exists only to make the function total; every
theorem that inspects the store after a write pins the existing-record
branch through a hypothesis.  `now` stands for
`FieldValue.serverTimestamp()`. -/
def storeUpdate (store : Store) (userId : String) (fcmToken : String)
    (now : String) : Store :=
  fun id =>
    if id = userId then
      some (match store userId with
        | some r => { r with fcmToken := some fcmToken, lastTokenUpdate := some now }
        | none => { fcmToken := some fcmToken, username := none, lastTokenUpdate := some now })
    else store id

/-- The `POST /api/user/:userId/token` handler (lines 161-188 of
`server.js`): validates the `fcmToken` of the body, then updates the
document of the user.  Returns the HTTP outcome together with the store
after the write. -/
def updateUserToken (store : Store) (now : String) (userId : String)
    (fcmToken : Option String) : TokenWriteOutcome × Store :=
  if !(truthy fcmToken) then
    ({ status := 400, error := some "FCM token is required", success := false,
       message := none }, store)
  else
    ({ status := 200, error := none, success := true,
       message := some "FCM token updated successfully" },
     storeUpdate store userId (fcmToken.getD "") now)

/-- The `latestVersion` object of lines 197-211 of `server.js`. -/
structure LatestVersionInfo where
  version : String
  versionCode : Nat
  downloadUrl : String
  releaseNotes : List String
  isForceUpdate : Bool
  minVersion : String
  deriving DecidableEq

/-- Response of the version-check handler. -/
structure VersionResponse where
  status : Nat
  success : Bool
  currentVersion : String
  latestVersion : LatestVersionInfo
  deriving DecidableEq

/-- An incoming HTTP request for endpoints that take no body: modelled as
its header list, which the version handler never inspects. -/
structure HttpRequest where
  headers : List (String × String)
  deriving DecidableEq

/-- The `GET /api/app/version` handler (lines 191-227 of `server.js`): a
constant response, independent of the request. -/
def appVersion (_req : HttpRequest) : VersionResponse :=
  { status := 200,
    success := true,
    currentVersion := "1.0.0",
    latestVersion :=
      { version := "1.0.2",
        versionCode := 3,
        downloadUrl := "https://github.com/selimqueengh-afk/SnickersChatv4/releases/download/snickerschat1/app-debug.apk",
        releaseNotes :=
          ["🖕 Siksik eklendi OHOHooho",
           "🖕 Şaka maka bildirim geliyor artık",
           "🖕 Sorgulama işte yükleamina",
           "🖕 YARRRRRRRRRAK",
           "🖕 SNİCKERSCHAT",
           "🖕 ZenciMEEEEEEN"],
        isForceUpdate := false,
        minVersion := "1.0.0" } }

/-! Concrete fixtures used to evaluate the handlers at specific inputs:
a small `users` collection with a recipient that has a token (`u2`), a
sender whose document carries only a `username` (`u1`), a user whose
document has no `fcmToken` field (`u3`), and no other documents. -/

/-- A concrete `users` collection. -/
def wStore : Store := fun id =>
  if id = "u2" then some ⟨some "tok123", none, none⟩
  else if id = "u1" then some ⟨none, some "Ayşe", none⟩
  else if id = "u3" then some ⟨none, none, none⟩
  else none

/-- A valid dispatch request whose message is 51 characters long. -/
def w1req : NotifRequest :=
  ⟨some "u2", some "u1", some "Ali",
   some "hello world this is a moderately long message textX", none⟩

/-- A dispatch request with no `senderId` field. -/
def w2req : NotifRequest := ⟨some "u2", none, none, some "hi", none⟩

/-- A valid dispatch request whose recipient document has no `fcmToken`. -/
def w3req : NotifRequest := ⟨some "u3", some "u1", some "Ali", some "hi", none⟩

/-- A valid dispatch request whose recipient has no document at all. -/
def w4req : NotifRequest := ⟨some "ghost", some "u1", some "Ali", some "hi", none⟩

/-- A valid dispatch request with no `senderName`, whose sender `u1` has a
document with a `username`. -/
def w5req : NotifRequest := ⟨some "u2", some "u1", none, some "hi", none⟩

/-- A valid dispatch request with no `senderName`, whose sender `ghost`
has no document in the store. -/
def cex5Req : NotifRequest := ⟨some "u2", some "ghost", none, some "hi", none⟩

/-! Theorems. -/

/-- The character count of a concatenation is the sum of the character
counts. -/
theorem jsLength_append (a b : String) : jsLength (a ++ b) = jsLength a + jsLength b := by
  cases a; cases b; simp [jsLength, String.length]

/-- Taking the first `n` characters yields at most `n` characters. -/
theorem jsLength_jsSubstring (s : String) (n : Nat) :
    jsLength (jsSubstring s n) = min n (jsLength s) := by
  simp [jsLength, jsSubstring]

/-- Claim C1: for every valid dispatch request (receiverId, senderId and
message truthy; recipient document present with a truthy token), the
outbound payload reaches the delivery call, its `data.message` field is
the untruncated input message, its `notification.body` equals the input
message when the length is at most 50 characters and equals the first 50
characters followed by three dots when longer, and the body length never
exceeds 53 characters. -/
theorem dispatch_body_truncation
    (store : Store) (senderLookupFails : Bool) (sendOutcome : Except String String)
    (now : String) (req : NotifRequest) (rec : UserRecord)
    (hr : truthy req.receiverId = true) (hs : truthy req.senderId = true)
    (hm : truthy req.message = true)
    (hrec : store (req.receiverId.getD "") = some rec)
    (htok : truthy rec.fcmToken = true) :
    ∃ p, (sendNotification store senderLookupFails sendOutcome now req).sent = some p ∧
      p.dataMessage = req.message.getD "" ∧
      (jsLength (req.message.getD "") ≤ 50 → p.body = req.message.getD "") ∧
      (jsLength (req.message.getD "") > 50 →
        p.body = jsSubstring (req.message.getD "") 50 ++ "...") ∧
      jsLength p.body ≤ 53 := by
  cases sendOutcome <;>
    simp only [sendNotification, hr, hs, hm, hrec, htok, Bool.not_true, Bool.false_or,
      Bool.or_self, if_false, Bool.false_eq_true] <;>
  · refine ⟨_, rfl, rfl, ?_, ?_, ?_⟩
    · intro h
      simp [Nat.not_lt.mpr h]
    · intro h
      simp [h]
    · by_cases h : jsLength (req.message.getD "") > 50
      · have h3 : jsLength "..." = 3 := rfl
        simp [h, jsLength_append, jsLength_jsSubstring, h3]
      · simp [h]
        omega

/-- Witness for C1 at a 51-character message. -/
theorem dispatch_body_truncation_witness :
    ∃ p, (sendNotification wStore false (Except.ok "mid1") "2026-01-01T00:00:00.000Z" w1req).sent
        = some p ∧
      p.dataMessage = w1req.message.getD "" ∧
      (jsLength (w1req.message.getD "") ≤ 50 → p.body = w1req.message.getD "") ∧
      (jsLength (w1req.message.getD "") > 50 →
        p.body = jsSubstring (w1req.message.getD "") 50 ++ "...") ∧
      jsLength p.body ≤ 53 :=
  dispatch_body_truncation wStore false (Except.ok "mid1") "2026-01-01T00:00:00.000Z" w1req
    ⟨some "tok123", none, none⟩ (by decide) (by decide) (by decide) (by decide) (by decide)

/-- Claim C2: for every dispatch request in which receiverId, senderId or
message is missing from the body, the handler returns HTTP 400 with the
error string naming the three required fields collectively, reads no
document from the record store, and never reaches the delivery call. -/
theorem dispatch_missing_fields_400
    (store : Store) (lf : Bool) (so : Except String String) (now : String)
    (req : NotifRequest)
    (h : req.receiverId = none ∨ req.senderId = none ∨ req.message = none) :
    (sendNotification store lf so now req).status = 400 ∧
    (sendNotification store lf so now req).error =
      some "Missing required fields: receiverId, senderId, message" ∧
    (sendNotification store lf so now req).storeGets = [] ∧
    (sendNotification store lf so now req).sent = none := by
  have hg : (!truthy req.receiverId || !truthy req.senderId || !truthy req.message) = true := by
    rcases h with h | h | h <;> simp [h, truthy]
  simp [sendNotification, hg]

/-- Witness for C2 at a request with no senderId. -/
theorem dispatch_missing_fields_400_witness :
    (sendNotification wStore false (Except.ok "m") "T" w2req).status = 400 ∧
    (sendNotification wStore false (Except.ok "m") "T" w2req).error =
      some "Missing required fields: receiverId, senderId, message" ∧
    (sendNotification wStore false (Except.ok "m") "T" w2req).storeGets = [] ∧
    (sendNotification wStore false (Except.ok "m") "T" w2req).sent = none :=
  dispatch_missing_fields_400 wStore false (Except.ok "m") "T" w2req (Or.inr (Or.inl rfl))

/-- Claim C3: for every valid dispatch request whose recipient document
exists but whose `fcmToken` field is absent or empty, the handler fails
with a client error (status 400 or 404) and never reaches the delivery
call. -/
theorem dispatch_empty_token_client_error
    (store : Store) (lf : Bool) (so : Except String String) (now : String)
    (req : NotifRequest) (rec : UserRecord)
    (hr : truthy req.receiverId = true) (hs : truthy req.senderId = true)
    (hm : truthy req.message = true)
    (hrec : store (req.receiverId.getD "") = some rec)
    (htok : truthy rec.fcmToken = false) :
    ((sendNotification store lf so now req).status = 400 ∨
      (sendNotification store lf so now req).status = 404) ∧
    (sendNotification store lf so now req).sent = none := by
  simp [sendNotification, hr, hs, hm, hrec, htok]

/-- Witness for C3 at a recipient whose document lacks `fcmToken`. -/
theorem dispatch_empty_token_client_error_witness :
    ((sendNotification wStore false (Except.ok "m") "T" w3req).status = 400 ∨
      (sendNotification wStore false (Except.ok "m") "T" w3req).status = 404) ∧
    (sendNotification wStore false (Except.ok "m") "T" w3req).sent = none :=
  dispatch_empty_token_client_error wStore false (Except.ok "m") "T" w3req ⟨none, none, none⟩
    (by decide) (by decide) (by decide) (by decide) (by decide)

/-- Claim C4: for every valid dispatch request whose receiverId has no
document in the store, the handler returns HTTP 404 with the error
"User not found" and never reaches the delivery call. -/
theorem dispatch_receiver_not_found_404
    (store : Store) (lf : Bool) (so : Except String String) (now : String)
    (req : NotifRequest)
    (hr : truthy req.receiverId = true) (hs : truthy req.senderId = true)
    (hm : truthy req.message = true)
    (hrec : store (req.receiverId.getD "") = none) :
    (sendNotification store lf so now req).status = 404 ∧
    (sendNotification store lf so now req).error = some "User not found" ∧
    (sendNotification store lf so now req).sent = none := by
  simp [sendNotification, hr, hs, hm, hrec]

/-- Witness for C4 at a receiverId with no document. -/
theorem dispatch_receiver_not_found_404_witness :
    (sendNotification wStore false (Except.ok "m") "T" w4req).status = 404 ∧
    (sendNotification wStore false (Except.ok "m") "T" w4req).error = some "User not found" ∧
    (sendNotification wStore false (Except.ok "m") "T" w4req).sent = none :=
  dispatch_receiver_not_found_404 wStore false (Except.ok "m") "T" w4req
    (by decide) (by decide) (by decide) (by decide)

/-- Counterexample to claim C5 as stated: at a valid request whose
senderName is absent and whose sender has no document in the store, the
sender lookup finds nothing (so the display-name field is certainly
absent), yet the notification title stays the absent caller-supplied
senderName instead of falling back to the generic unknown label
"Bilinmeyen". -/
theorem dispatch_title_fallback_counterexample :
    (sendNotification wStore false (Except.ok "m1") "2026-01-01T00:00:00.000Z" cex5Req).sent.map
      NotificationPayload.title = some none ∧
    (sendNotification wStore false (Except.ok "m1") "2026-01-01T00:00:00.000Z" cex5Req).sent.map
      NotificationPayload.title ≠ some (some "Bilinmeyen") := by
  constructor
  · rfl
  · decide

/-- Claim C5 as amended: for every valid dispatch request, the title is
the caller-supplied senderName when it is truthy and differs from the
placeholder "Kullanıcı"; otherwise, when the sender lookup throws the
title is "Bilinmeyen"; when the sender document exists the title is its
`username` field, with "Bilinmeyen" replacing an absent or empty field;
and when the sender document does not exist the title keeps the original
caller-supplied senderName, with no fallback. -/
theorem dispatch_title_resolution_amended
    (store : Store) (lf : Bool) (so : Except String String) (now : String)
    (req : NotifRequest) (rec : UserRecord)
    (hr : truthy req.receiverId = true) (hs : truthy req.senderId = true)
    (hm : truthy req.message = true)
    (hrec : store (req.receiverId.getD "") = some rec)
    (htok : truthy rec.fcmToken = true) :
    ∃ p, (sendNotification store lf so now req).sent = some p ∧
      (truthy req.senderName = true → req.senderName ≠ some "Kullanıcı" →
        p.title = req.senderName) ∧
      ((truthy req.senderName = false ∨ req.senderName = some "Kullanıcı") →
        ((lf = true → p.title = some "Bilinmeyen") ∧
         (lf = false → store (req.senderId.getD "") = none → p.title = req.senderName) ∧
         (lf = false → ∀ senderRec, store (req.senderId.getD "") = some senderRec →
            p.title = some (jsOr senderRec.username "Bilinmeyen")))) := by
  cases so <;>
    simp only [sendNotification, hr, hs, hm, hrec, htok, Bool.not_true, Bool.false_or,
      Bool.or_self, if_false, Bool.false_eq_true] <;>
  · refine ⟨_, rfl, ?_, ?_⟩
    · intro h1 h2
      have hb : (req.senderName == some "Kullanıcı") = false := by
        simpa using h2
      simp [h1, hb]
    · intro h
      have hn : (!truthy req.senderName || req.senderName == some "Kullanıcı") = true := by
        rcases h with h | h <;> simp [h]
      refine ⟨?_, ?_, ?_⟩
      · intro hl; simp [hn, hl]
      · intro hl hnone; simp [hn, hl, hnone]
      · intro hl senderRec hsr; simp [hn, hl, hsr]

/-- Witness for the amended C5 at a request with no senderName whose
sender document carries a username. -/
theorem dispatch_title_resolution_amended_witness :
    ∃ p, (sendNotification wStore false (Except.ok "m") "T" w5req).sent = some p ∧
      (truthy w5req.senderName = true → w5req.senderName ≠ some "Kullanıcı" →
        p.title = w5req.senderName) ∧
      ((truthy w5req.senderName = false ∨ w5req.senderName = some "Kullanıcı") →
        ((false = true → p.title = some "Bilinmeyen") ∧
         (false = false → wStore (w5req.senderId.getD "") = none → p.title = w5req.senderName) ∧
         (false = false → ∀ senderRec, wStore (w5req.senderId.getD "") = some senderRec →
            p.title = some (jsOr senderRec.username "Bilinmeyen")))) :=
  dispatch_title_resolution_amended wStore false (Except.ok "m") "T" w5req
    ⟨some "tok123", none, none⟩ (by decide) (by decide) (by decide) (by decide) (by decide)

/-- Claim C6: for every user id whose document exists and every non-empty
token, writing the token and then reading it back for the same user id
returns exactly the written token with HTTP 200 on both operations. -/
theorem token_write_read_roundtrip
    (store : Store) (now uid tok : String) (rec : UserRecord)
    (hrec : store uid = some rec) (htok : tok ≠ "") :
    (updateUserToken store now uid (some tok)).1.status = 200 ∧
    (updateUserToken store now uid (some tok)).1.success = true ∧
    (getUserToken (updateUserToken store now uid (some tok)).2 uid).status = 200 ∧
    (getUserToken (updateUserToken store now uid (some tok)).2 uid).userId = some uid ∧
    (getUserToken (updateUserToken store now uid (some tok)).2 uid).fcmToken = some tok := by
  have ht : truthy (some tok) = true := by simp [truthy, htok]
  simp [updateUserToken, ht, getUserToken, storeUpdate, hrec, jsOrNull, htok]

/-- Witness for C6: write then read the token of user u3. -/
theorem token_write_read_roundtrip_witness :
    (updateUserToken wStore "TS" "u3" (some "newtok")).1.status = 200 ∧
    (updateUserToken wStore "TS" "u3" (some "newtok")).1.success = true ∧
    (getUserToken (updateUserToken wStore "TS" "u3" (some "newtok")).2 "u3").status = 200 ∧
    (getUserToken (updateUserToken wStore "TS" "u3" (some "newtok")).2 "u3").userId = some "u3" ∧
    (getUserToken (updateUserToken wStore "TS" "u3" (some "newtok")).2 "u3").fcmToken =
      some "newtok" :=
  token_write_read_roundtrip wStore "TS" "u3" "newtok" ⟨none, none, none⟩ (by decide) (by decide)

/-- Claim C7: for every user id whose document exists with no `fcmToken`
field, the token read returns HTTP 200 with body fields userId and a null
fcmToken — a success, not an error. -/
theorem token_read_absent_token_ok
    (store : Store) (uid : String) (rec : UserRecord)
    (hrec : store uid = some rec) (hnone : rec.fcmToken = none) :
    (getUserToken store uid).status = 200 ∧
    (getUserToken store uid).userId = some uid ∧
    (getUserToken store uid).fcmToken = none ∧
    (getUserToken store uid).error = none := by
  simp [getUserToken, hrec, jsOrNull, hnone]

/-- Witness for C7 at user u3, whose document has no token. -/
theorem token_read_absent_token_ok_witness :
    (getUserToken wStore "u3").status = 200 ∧
    (getUserToken wStore "u3").userId = some "u3" ∧
    (getUserToken wStore "u3").fcmToken = none ∧
    (getUserToken wStore "u3").error = none :=
  token_read_absent_token_ok wStore "u3" ⟨none, none, none⟩ (by decide) (by decide)

/-- Claim C9: the version-check handler is deterministic — any two
requests get identical responses, each HTTP 200 with success true, the
current version string, and the constant latest-version descriptor. -/
theorem appVersion_deterministic (r1 r2 : HttpRequest) :
    appVersion r1 = appVersion r2 ∧
    (appVersion r1).status = 200 ∧
    (appVersion r1).success = true ∧
    (appVersion r1).currentVersion = "1.0.0" ∧
    (appVersion r1).latestVersion =
      { version := "1.0.2",
        versionCode := 3,
        downloadUrl := "https://github.com/selimqueengh-afk/SnickersChatv4/releases/download/snickerschat1/app-debug.apk",
        releaseNotes :=
          ["🖕 Siksik eklendi OHOHooho",
           "🖕 Şaka maka bildirim geliyor artık",
           "🖕 Sorgulama işte yükleamina",
           "🖕 YARRRRRRRRRAK",
           "🖕 SNİCKERSCHAT",
           "🖕 ZenciMEEEEEEN"],
        isForceUpdate := false,
        minVersion := "1.0.0" } :=
  ⟨rfl, rfl, rfl, rfl, rfl⟩

/-- Claim C10: supplying receiverId, senderId or message as the empty
string gives exactly the response of the request with that field missing:
the handler returns HTTP 400 with no record-store read and no delivery
call, since the presence validation is a falsiness check. -/
theorem dispatch_empty_string_fields_rejected
    (store : Store) (lf : Bool) (so : Except String String) (now : String)
    (req : NotifRequest) :
    (sendNotification store lf so now { req with receiverId := some "" } =
      sendNotification store lf so now { req with receiverId := none }) ∧
    (sendNotification store lf so now { req with senderId := some "" } =
      sendNotification store lf so now { req with senderId := none }) ∧
    (sendNotification store lf so now { req with message := some "" } =
      sendNotification store lf so now { req with message := none }) ∧
    (sendNotification store lf so now { req with receiverId := some "" }).status = 400 ∧
    (sendNotification store lf so now { req with receiverId := some "" }).storeGets = [] ∧
    (sendNotification store lf so now { req with receiverId := some "" }).sent = none ∧
    (sendNotification store lf so now { req with senderId := some "" }).status = 400 ∧
    (sendNotification store lf so now { req with senderId := some "" }).storeGets = [] ∧
    (sendNotification store lf so now { req with senderId := some "" }).sent = none ∧
    (sendNotification store lf so now { req with message := some "" }).status = 400 ∧
    (sendNotification store lf so now { req with message := some "" }).storeGets = [] ∧
    (sendNotification store lf so now { req with message := some "" }).sent = none := by
  simp [sendNotification, truthy]

end SnickersChat
